import Mathlib

/-!
# Verification of the py-runner task-dispatch actor

A shallow embedding of `src/lib.rs`: a caller-facing `PythonModule` handle
drives a dedicated worker thread through an unbounded task channel; every
call to `action` creates a fresh capacity-1 rendezvous slot for its reply;
`new_project` performs an initialization handshake over a one-shot channel;
dropping the handle sends a single `None` shutdown sentinel; `execute_code`
is a standalone one-shot entry point executing a source string against a
fresh empty namespace.

The embedding is parametric in the caller result type `T` and in the
worker-owned module state `M` (the loaded Python module object, which the
source never exposes outside the worker).  The external Python runtime
(importlib loader, interpreter) is out of scope for the source and enters
the model as opaque function parameters, exactly as the spec treats it.
-/

namespace PyRunner

/-- Kind of a Python exception raised through pyo3 (`PyRuntimeError`,
`PyFileNotFoundError`, or any other exception class by name). -/
inductive PyExcKind where
  | runtimeError
  | fileNotFoundError
  | other (name : String)
deriving DecidableEq, Repr

/-- A `PyErr`: an exception kind together with its message. -/
structure PyErr where
  kind : PyExcKind
  msg : String
deriving DecidableEq, Repr

/-- `PyResult<α>` from pyo3: `Ok` or a `PyErr`. -/
abbrev PyResult (α : Type) := Except PyErr α

/-- Equality on `Except` values is decidable when it is on both components. -/
def exceptDecEq {ε α : Type} [DecidableEq ε] [DecidableEq α] :
    DecidableEq (Except ε α) := fun a b =>
  match a, b with
  | Except.ok x, Except.ok y =>
      if h : x = y then isTrue (congrArg Except.ok h)
      else isFalse (fun hh => h (Except.ok.inj hh))
  | Except.ok _, Except.error _ => isFalse (fun hh => Except.noConfusion hh)
  | Except.error _, Except.ok _ => isFalse (fun hh => Except.noConfusion hh)
  | Except.error x, Except.error y =>
      if h : x = y then isTrue (congrArg Except.error h)
      else isFalse (fun hh => h (Except.error.inj hh))

instance {ε α : Type} [DecidableEq ε] [DecidableEq α] :
    DecidableEq (Except ε α) := exceptDecEq

/-- A task queued on the task channel: the rendezvous-slot identifier of the
call that created it, plus the caller-supplied operation
`fn(&Python, &Bound<PyAny>) -> PyResult<T>` (a pure function of the
worker-owned module state `M` in the embedding). -/
structure Task (T M : Type) where
  slot : Nat
  call : M → PyResult T

/-- A message on the task channel:
`Option<Box<dyn FnOnce(&Python, &Bound<PyAny>) + Send>>` — `some` carries a
task, `none` is the shutdown sentinel. -/
abbrev Msg (T M : Type) := Option (Task T M)

/-- One value placed into a rendezvous slot: the slot identifier and the
`PyResult` the task sent (`let _ = sender.send(result)`). -/
structure SlotWrite (T : Type) where
  slot : Nat
  val : PyResult T

/-- The worker task loop
`while let Ok(Some(task)) = py.allow_threads(|| task_receiver.recv()) { task(&py, &module); }`:
given the module state and the sequence of messages received, the list of
slot writes the executed tasks produce, in order.  The loop stops at the
first `none` sentinel or when the channel yields no further message. -/
def runWorker (mod : M) : List (Msg T M) → List (SlotWrite T)
  | [] => []
  | Option.none :: _ => []
  | Option.some t :: rest => ⟨t.slot, t.call mod⟩ :: runWorker mod rest

/-- The values placed into slot `s`, in order. -/
def writesTo (s : Nat) (ws : List (SlotWrite T)) : List (PyResult T) :=
  (ws.filter fun w => w.slot == s).map SlotWrite.val

/-- `receiver.recv()` on the rendezvous slot `s`: the first value placed into
the slot, or a disconnection error when no value is ever placed. -/
def slotRecv (s : Nat) (ws : List (SlotWrite T)) : Except Unit (PyResult T) :=
  match writesTo s ws with
  | [] => Except.error ()
  | r :: _ => Except.ok r

/-- What a call to `action` does after the blocking receive: either it
returns a `PyResult` normally, or it panics (`unwrap` on an `Err`). -/
inductive Outcome (T : Type) where
  | ret (r : PyResult T)
  | panic (msg : String)
deriving DecidableEq, Repr

/-- The error `action` returns when the liveness probe fires:
`PyRuntimeError("Python thread has exited")`. -/
def threadExitedErr : PyErr := ⟨PyExcKind.runtimeError, "Python thread has exited"⟩

/-- The error `action` returns when the channel send fails:
`PyRuntimeError("Task send failed")`. -/
def sendFailedErr : PyErr := ⟨PyExcKind.runtimeError, "Task send failed"⟩

/-- The panic message class of `receiver.recv().unwrap()` on a disconnected
slot. -/
def recvUnwrapPanic : String := "unwrap on Err"

/-- One call to `action`, with its externally visible effects. -/
structure ActionRun (T M : Type) where
  /-- the messages the call placed on the task channel -/
  sent : List (Msg T M)
  /-- the call result: a returned `PyResult` or a panic -/
  out : Outcome T

/-- `PythonModule::action` (src/lib.rs lines 41-64), as a function of the
runtime conditions it observes: `finished` is `thread_handle.is_finished()`,
`sendOk` tells whether `task_sender.send(Some(task))` succeeded (the
consumer may be gone), and `recv` is the blocking receive on the fresh
rendezvous slot.  The source in order: probe, early `Err` return; build the
task; send, `Err` on failure; `receiver.recv().unwrap()`. -/
def actionRun (finished sendOk : Bool) (t : Task T M)
    (recv : Except Unit (PyResult T)) : ActionRun T M :=
  if finished then
    ⟨[], Outcome.ret (Except.error threadExitedErr)⟩
  else if sendOk then
    ⟨[Option.some t],
      match recv with
      | Except.ok r => Outcome.ret r
      | Except.error _ => Outcome.panic recvUnwrapPanic⟩
  else
    ⟨[], Outcome.ret (Except.error sendFailedErr)⟩

/-- `impl Drop for PythonModule` (src/lib.rs lines 28-32): the externally visible
behaviour of the teardown. -/
structure DropRun (T M : Type) where
  /-- the messages the destructor places on the task channel -/
  sent : List (Msg T M)
  /-- whether the destructor joins / waits for the worker thread -/
  waitsForWorker : Bool

/-- The drop implementation `self.task_sender.send(None).unwrap()`: it sends
the single `None` sentinel and returns without joining the worker. -/
def dropRun (T M : Type) : DropRun T M := ⟨[Option.none], false⟩

/-- All messages a handle places on the task channel over its lifetime: one
`some` per `action` call (in order), then whatever its destructor sends. -/
def handleMsgs (tasks : List (Task T M)) : List (Msg T M) :=
  tasks.map Option.some ++ (dropRun T M).sent

/-- An observable event of the worker thread (src/lib.rs lines 86-120). -/
inductive WEvent (T : Type) where
  | initSent (r : Except PyErr Unit)
  | taskRun (slot : Nat) (res : PyResult T)
  | exited
deriving DecidableEq, Repr

/-- The one-shot messages the worker sends on the initialization channel:
one `Ok(())` when `init()` succeeded, one `Err(e)` when it failed. -/
def workerInitMsgs (M : Type) : Except PyErr M → List (Except PyErr Unit)
  | Except.ok _ => [Except.ok ()]
  | Except.error e => [Except.error e]

/-- The initialization signal as the constructor observes it. -/
def initSignal (M : Type) : Except PyErr M → Except PyErr Unit
  | Except.ok _ => Except.ok ()
  | Except.error e => Except.error e

/-- The event trace of the worker thread, given the outcome of `init()` (the
importlib load of the entry file) and the task-channel messages: on success
it signals `Ok`, runs the task loop, then exits; on failure it signals the
error and exits at once without entering the loop. -/
def workerEvents (initRes : Except PyErr M) (msgs : List (Msg T M)) :
    List (WEvent T) :=
  match initRes with
  | Except.ok mod =>
      WEvent.initSent (Except.ok ()) ::
        ((runWorker mod msgs).map fun w => WEvent.taskRun w.slot w.val) ++
          [WEvent.exited]
  | Except.error e => [WEvent.initSent (Except.error e), WEvent.exited]

/-- Whether an event is the init-channel send. -/
def isInitSent : WEvent T → Bool
  | WEvent.initSent _ => true
  | _ => false

/-- Whether an event is a task execution. -/
def isTaskRun : WEvent T → Bool
  | WEvent.taskRun _ _ => true
  | _ => false

/-- The caller-facing handle: holds the task-channel producer and the worker
join handle; the embedding records the entry file it was built from. -/
structure PythonModule where
  initFile : String
deriving DecidableEq, Repr

/-- The environment `new_project` runs against: the filesystem probe
`PathBuf::is_file` and the opaque importlib loader (the body of `init()`),
giving the loaded module state for an entry file. -/
structure LoadEnv (M : Type) where
  isFile : String → Bool
  loadInit : String → Except PyErr M

/-- The `PyFileNotFoundError` built by `new_project`:
`format!("No {} found", init_file.display())`. -/
def fileNotFoundErr (f : String) : PyErr :=
  ⟨PyExcKind.fileNotFoundError, "No " ++ f ++ " found"⟩

/-- `PythonModule::new_project` (src/lib.rs lines 75-129): reject a path
that is not a regular file; otherwise spawn the worker and block on the
init channel: `if let Ok(v) = init_receiver.recv() { v?; }` then
`Ok(PythonModule)`.  The receive observes the head of the init
messages of the worker; when the worker sent nothing the `if let` falls through. -/
def new_project (env : LoadEnv M) (init_file : String) :
    Except PyErr PythonModule :=
  if env.isFile init_file then
    match (workerInitMsgs M (env.loadInit init_file)).head? with
    | Option.some (Except.error e) => Except.error e
    | Option.some (Except.ok _) => Except.ok ⟨init_file⟩
    | Option.none => Except.ok ⟨init_file⟩
  else
    Except.error (fileNotFoundErr init_file)

/-- Whether `new_project` reaches `thread::spawn`: everything after the
`is_file` early return does. -/
def new_project_spawns (env : LoadEnv M) (init_file : String) : Bool :=
  env.isFile init_file

/-- The fixed entry-file name used by `new_module`. -/
def initFileName : String := "__init__.py"

/-- `Path::join` on the string model of paths. -/
def pathJoin (p file : String) : String := p ++ "/" ++ file

/-- `PythonModule::new_module` (src/lib.rs lines 68-71): join `__init__.py`
onto the directory and delegate to `new_project`. -/
def new_module (env : LoadEnv M) (path : String) : Except PyErr PythonModule :=
  new_project env (pathJoin path initFileName)

/-- Whether `new_module` reaches `thread::spawn`. -/
def new_module_spawns (env : LoadEnv M) (path : String) : Bool :=
  new_project_spawns env (pathJoin path initFileName)

/-- A Python namespace (the `globals` dict of `execute_code`), modelled as
an association list from names to extracted text values. -/
abbrev PyNs := List (String × String)

/-- `PyDict::new(py)`: the fresh empty namespace. -/
def emptyNs : PyNs := []

/-- `CString::new(s)` fails exactly when `s` has an interior NUL byte. -/
def hasNul (s : String) : Bool := s.data.any fun c => c == Char.ofNat 0

/-- Result of one `execute_code` call: a returned `PyResult` or a panic
(from `CString::new(..).expect` or `py.run(..).unwrap()`). -/
inductive ExecOutcome (T : Type) where
  | ret (r : PyResult T)
  | panic (msg : String)
deriving DecidableEq, Repr

/-- `execute_code` (src/lib.rs lines 137-150), with the Python interpreter
`py.run` abstracted as `interp : source → namespace → PyResult namespace`:
build the C string (panic on interior NUL), create a fresh empty `globals`
dict, run the source against it (panic when the source raises), then let
the caller-supplied `f` extract the result from the namespace. -/
def execute_code (interp : String → PyNs → PyResult PyNs) (s : String)
    (f : PyNs → PyResult T) : ExecOutcome T :=
  if hasNul s then
    ExecOutcome.panic "CString new failed"
  else
    match interp s emptyNs with
    | Except.error _ => ExecOutcome.panic "run unwrap"
    | Except.ok globals => ExecOutcome.ret (f globals)

/-- `n` successive independent calls of `execute_code` with the same
arguments, most recent call last. -/
def execSeq (interp : String → PyNs → PyResult PyNs) (s : String)
    (f : PyNs → PyResult T) : Nat → List (ExecOutcome T)
  | 0 => []
  | n + 1 => execSeq interp s f n ++ [execute_code interp s f]

/-- Modelled from the spec: the external Python interpreter, out of scope
for the source (the spec treats the foreign runtime loader semantics and the
inline runtime session as external collaborators), restricted to the example
program of the spec — executing the literal source `x = \x2710\x27` (quotes around 10) against a
namespace binds the name `x` to the text `10`; any other source raises. -/
def assignInterp (s : String) (ns : PyNs) : PyResult PyNs :=
  if s = "x = \x2710\x27" then
    Except.ok (("x", "10") :: ns)
  else
    Except.error ⟨PyExcKind.other "SyntaxError", s⟩

/-- The extraction function of the example in the spec:
`globals.get_item("x")?.unwrap().extract::<String>()`. -/
def extractX (ns : PyNs) : PyResult String :=
  match ns.lookup "x" with
  | Option.some v => Except.ok v
  | Option.none => Except.error ⟨PyExcKind.other "KeyError", "x"⟩

/-- The number of init-channel sends in a worker event trace. -/
def countInitSent (evs : List (WEvent T)) : Nat :=
  (evs.filter isInitSent).length

/-- The literal source string of the example in the spec (`x`, equals sign,
then `10` in single quotes). -/
def code10 : String := "x = \x2710\x27"

/-- Concrete fixture: the task of a first caller, slot 0, whose operation
fails. -/
def wTask0 : Task Nat Unit :=
  ⟨0, fun _ => Except.error ⟨PyExcKind.other "ValueError", "boom"⟩⟩

/-- Concrete fixture: the task of a second caller, slot 1, whose operation
returns 7. -/
def wTask1 : Task Nat Unit := ⟨1, fun _ => Except.ok 7⟩

/-- Concrete fixture: a task-channel content with the two tasks queued. -/
def wMsgs : List (Msg Nat Unit) := [Option.some wTask0, Option.some wTask1]

/-- Concrete fixture: an environment whose filesystem has every path and
whose loader always succeeds. -/
def wEnvOk : LoadEnv Unit := ⟨fun _ => true, fun _ => Except.ok ()⟩

/-- Concrete fixture: an environment whose filesystem has no path and whose
loader always fails. -/
def wEnvBad : LoadEnv Unit :=
  ⟨fun _ => false, fun f => Except.error (fileNotFoundErr f)⟩

/-! ## Helper lemmas -/

theorem writesTo_cons {T : Type} (s : Nat) (w : SlotWrite T)
    (ws : List (SlotWrite T)) :
    writesTo s (w :: ws) =
      if w.slot = s then w.val :: writesTo s ws else writesTo s ws := by
  by_cases h : w.slot = s <;> simp [writesTo, List.filter_cons, h]

theorem writesTo_runWorker_eq_nil {T M : Type} (mod : M) (s : Nat)
    (msgs : List (Msg T M))
    (h : ∀ t : Task T M, Option.some t ∈ msgs → t.slot ≠ s) :
    writesTo s (runWorker mod msgs) = [] := by
  induction msgs with
  | nil => rfl
  | cons m rest ih =>
    cases m with
    | none => rfl
    | some t =>
      rw [runWorker, writesTo_cons, if_neg (h t (List.mem_cons_self _ _))]
      exact ih fun t2 ht2 => h t2 (List.mem_cons_of_mem _ ht2)

theorem writesTo_runWorker_of_fresh {T M : Type} (mod : M)
    (msgs : List (Msg T M)) (i : Nat) (t : Task T M)
    (hget : msgs[i]? = some (Option.some t))
    (hlive : ∀ j, j < i → msgs[j]? ≠ some Option.none)
    (hfresh : ∀ j t2, msgs[j]? = some (Option.some t2) → t2.slot = t.slot → j = i) :
    writesTo t.slot (runWorker mod msgs) = [t.call mod] := by
  induction msgs generalizing i with
  | nil => simp at hget
  | cons m rest ih =>
    cases i with
    | zero =>
      rw [List.getElem?_cons_zero] at hget
      have hm : m = Option.some t := by exact Option.some.inj hget
      subst hm
      rw [runWorker, writesTo_cons, if_pos rfl]
      have hrest : writesTo t.slot (runWorker mod rest) = [] := by
        apply writesTo_runWorker_eq_nil
        intro t2 ht2 hslot
        obtain ⟨k, hk⟩ := List.mem_iff_getElem?.mp ht2
        have hk2 : (Option.some t :: rest)[k + 1]? = some (Option.some t2) := by
          simpa using hk
        exact Nat.succ_ne_zero k (hfresh (k + 1) t2 hk2 hslot)
      rw [hrest]
    | succ j =>
      cases m with
      | none =>
        have h0 := hlive 0 (Nat.succ_pos j)
        rw [List.getElem?_cons_zero] at h0
        exact absurd rfl h0
      | some t1 =>
        have hne : t1.slot ≠ t.slot := by
          intro hslot
          exact Nat.succ_ne_zero j
            ((hfresh 0 t1 (by simp) hslot).symm)
        rw [runWorker, writesTo_cons, if_neg hne]
        apply ih j
        · simpa using hget
        · intro k hk
          have := hlive (k + 1) (Nat.succ_lt_succ hk)
          simpa using this
        · intro k t2 hget2 hslot
          have hk2 : (Option.some t1 :: rest)[k + 1]? = some (Option.some t2) := by
            simpa using hget2
          have := hfresh (k + 1) t2 hk2 hslot
          omega

theorem runWorker_append {T M : Type} (mod : M) (pre post : List (Msg T M))
    (hpre : Option.none ∉ pre) :
    runWorker mod (pre ++ post) = runWorker mod pre ++ runWorker mod post := by
  induction pre with
  | nil => rfl
  | cons m rest ih =>
    cases m with
    | none => exact absurd (List.mem_cons_self _ _) hpre
    | some t =>
      have h2 : Option.none ∉ rest := fun hm => hpre (List.mem_cons_of_mem _ hm)
      simp only [List.cons_append, runWorker, List.append_eq, ih h2]

theorem runWorker_length {T M : Type} (mod : M) (msgs : List (Msg T M))
    (h : Option.none ∉ msgs) :
    (runWorker mod msgs).length = msgs.length := by
  induction msgs with
  | nil => rfl
  | cons m rest ih =>
    cases m with
    | none => exact absurd (List.mem_cons_self _ _) h
    | some t =>
      simp only [runWorker, List.length_cons,
        ih fun hm => h (List.mem_cons_of_mem _ hm)]

theorem filter_isInitSent_taskRuns {T : Type} (ws : List (SlotWrite T)) :
    ((ws.map fun w => WEvent.taskRun w.slot w.val).filter isInitSent) = [] := by
  induction ws with
  | nil => rfl
  | cons w rest ih => simp [List.filter_cons, isInitSent, ih]

/-! ## The claims -/

/-- C3: when the liveness probe sees the worker finished, `action` returns
the typed `Python thread has exited` error at once and sends nothing on the
task channel; when the probe passes but the send fails because the consumer
is gone, `action` returns the typed `Task send failed` error — in both
cases a returned `PyResult`, never a panic or a hang. -/
theorem action_dead_worker_typed_error {T M : Type} (t : Task T M)
    (sendOk : Bool) (recv recv2 : Except Unit (PyResult T)) :
    actionRun true sendOk t recv
      = ⟨[], Outcome.ret (Except.error threadExitedErr)⟩ ∧
    actionRun false false t recv2
      = ⟨[], Outcome.ret (Except.error sendFailedErr)⟩ :=
  ⟨rfl, rfl⟩

/-- C6: dropping a handle sends exactly the single `None` shutdown sentinel
on the task channel and does not wait for the worker thread; over a whole
handle lifetime (any sequence of `action` calls followed by the destructor)
exactly one shutdown sentinel appears on the channel. -/
theorem drop_sends_one_shutdown (T M : Type) (tasks : List (Task T M)) :
    (dropRun T M).sent = [Option.none] ∧
    (dropRun T M).waitsForWorker = false ∧
    (handleMsgs tasks).countP (fun m => m.isNone) = 1 := by
  refine ⟨rfl, rfl, ?_⟩
  simp [handleMsgs, dropRun, List.countP_append, List.countP_cons,
    List.countP_map, Function.comp_def, List.countP_eq_zero]

/-- C7: when the rendezvous slot is disconnected (its sender dropped with no
value sent), `action` panics at `receiver.recv().unwrap()` — a forced
failure, never a returned `PyResult` value. -/
theorem action_recv_disconnected_panics {T M : Type} (t : Task T M) :
    (actionRun false true t (Except.error ())).out
      = Outcome.panic recvUnwrapPanic ∧
    ∀ r : PyResult T, (actionRun false true t (Except.error ())).out
      ≠ Outcome.ret r :=
  ⟨rfl, fun _ h => Outcome.noConfusion h⟩

/-- C8: `new_module p` is exactly `new_project` applied to the fixed entry
file `__init__.py` joined onto `p`: the two agree on every environment, the
entry-file name is the fixed `__init__.py`, and when that file is absent
`new_module` fails with the FileNotFound error for it. -/
theorem new_module_refines_new_project (M : Type) (env : LoadEnv M)
    (p : String) :
    new_module env p = new_project env (pathJoin p initFileName) ∧
    pathJoin p initFileName = p ++ "/" ++ initFileName ∧
    initFileName = "__init__.py" ∧
    (env.isFile (pathJoin p initFileName) = false →
      new_module env p
        = Except.error (fileNotFoundErr (pathJoin p initFileName))) := by
  refine ⟨rfl, rfl, rfl, fun habs => ?_⟩
  simp [new_module, new_project, habs]

/-- C1: for a call to `action` on a live worker whose task is consumed and
executed (it sits in the channel at position `i` with no shutdown sentinel
before it, and its rendezvous slot is private to the call), exactly one
value is placed into that slot — the single invocation of the operation —
and `action` returns exactly that operation result, never a value of
another call. -/
theorem action_returns_own_result {T M : Type} (mod : M)
    (msgs : List (Msg T M)) (i : Nat) (t : Task T M)
    (hget : msgs[i]? = some (Option.some t))
    (hlive : ∀ j, j < i → msgs[j]? ≠ some Option.none)
    (hfresh : ∀ j t2, msgs[j]? = some (Option.some t2) →
      t2.slot = t.slot → j = i) :
    writesTo t.slot (runWorker mod msgs) = [t.call mod] ∧
    (actionRun false true t (slotRecv t.slot (runWorker mod msgs))).out
      = Outcome.ret (t.call mod) := by
  have h1 := writesTo_runWorker_of_fresh mod msgs i t hget hlive hfresh
  refine ⟨h1, ?_⟩
  simp [slotRecv, h1, actionRun]

/-- Witness for C1 at a concrete queue of two callers. -/
theorem action_returns_own_result_witness :
    writesTo wTask1.slot (runWorker () wMsgs) = [Except.ok 7] ∧
    (actionRun false true wTask1 (slotRecv wTask1.slot (runWorker () wMsgs))).out
      = Outcome.ret (Except.ok 7) := by
  have hlive : ∀ j, j < 1 → wMsgs[j]? ≠ some Option.none := by
    intro j hj
    have hj0 : j = 0 := by omega
    subst hj0
    simp [wMsgs]
  have hfresh : ∀ j t2, wMsgs[j]? = some (Option.some t2) →
      t2.slot = wTask1.slot → j = 1 := by
    intro j t2 hget hslot
    cases j with
    | zero =>
      simp [wMsgs] at hget
      rw [← hget] at hslot
      simp [wTask0, wTask1] at hslot
    | succ j1 =>
      cases j1 with
      | zero => rfl
      | succ j2 => simp [wMsgs] at hget
  exact action_returns_own_result () wMsgs 1 wTask1 rfl hlive hfresh

/-- C2: on a path that is a regular file, the worker sends the
initialization result exactly once, before any task event (it is the head
of the worker trace), and the constructor result is exactly a function of
the observed signal: the loader error on failure, a handle only on
success. -/
theorem init_handshake_before_tasks (M T : Type) (env : LoadEnv M)
    (f : String) (msgs : List (Msg T M)) (hf : env.isFile f = true) :
    countInitSent (workerEvents (env.loadInit f) msgs) = 1 ∧
    (workerEvents (env.loadInit f) msgs).head?
      = some (WEvent.initSent (initSignal M (env.loadInit f))) ∧
    new_project env f
      = (match initSignal M (env.loadInit f) with
         | Except.error e => Except.error e
         | Except.ok _ => Except.ok ⟨f⟩) := by
  cases h : env.loadInit f with
  | ok mod =>
    refine ⟨?_, ?_, ?_⟩
    · simp [workerEvents, countInitSent, List.filter_cons, isInitSent,
        List.filter_append, filter_isInitSent_taskRuns]
    · simp [workerEvents, initSignal]
    · simp [new_project, hf, workerInitMsgs, initSignal, h]
  | error e =>
    refine ⟨?_, ?_, ?_⟩
    · simp [workerEvents, countInitSent, List.filter_cons, isInitSent]
    · simp [workerEvents, initSignal]
    · simp [new_project, hf, workerInitMsgs, initSignal, h]

/-- Witness for C2 at a concrete succeeding environment. -/
theorem init_handshake_before_tasks_witness :
    countInitSent (workerEvents (T := Nat) (wEnvOk.loadInit "main.py") []) = 1 ∧
    (workerEvents (T := Nat) (wEnvOk.loadInit "main.py") []).head?
      = some (WEvent.initSent (initSignal Unit (wEnvOk.loadInit "main.py"))) ∧
    new_project wEnvOk "main.py"
      = (match initSignal Unit (wEnvOk.loadInit "main.py") with
         | Except.error e => Except.error e
         | Except.ok _ => Except.ok ⟨"main.py"⟩) :=
  init_handshake_before_tasks Unit Nat wEnvOk "main.py" [] rfl

/-- C4: a task whose operation produces an error has that error delivered
through its own rendezvous slot, and the worker loop continues to the
messages after it; with no shutdown sentinel in the queue every message is
consumed — the loop never exits because a task returned an error. -/
theorem worker_survives_task_error {T M : Type} (mod : M)
    (pre post : List (Msg T M)) (t : Task T M) (e : PyErr)
    (hpre : Option.none ∉ pre) (hpost : Option.none ∉ post)
    (herr : t.call mod = Except.error e) :
    runWorker mod (pre ++ Option.some t :: post)
      = runWorker mod pre
          ++ ⟨t.slot, Except.error e⟩ :: runWorker mod post ∧
    (⟨t.slot, (Except.error e : PyResult T)⟩ : SlotWrite T)
      ∈ runWorker mod (pre ++ Option.some t :: post) ∧
    (runWorker mod (pre ++ Option.some t :: post)).length
      = pre.length + 1 + post.length := by
  have h1 : runWorker mod (pre ++ Option.some t :: post)
      = runWorker mod pre
          ++ ⟨t.slot, Except.error e⟩ :: runWorker mod post := by
    rw [runWorker_append mod pre _ hpre, runWorker, herr]
  refine ⟨h1, ?_, ?_⟩
  · rw [h1]
    exact List.mem_append_right _ (List.mem_cons_self _ _)
  · have hall : Option.none ∉ pre ++ Option.some t :: post := by
      simp [List.mem_append, List.mem_cons, hpre, hpost]
    rw [runWorker_length mod _ hall]
    simp
    omega

/-- Witness for C4 at a concrete queue with a failing middle task. -/
theorem worker_survives_task_error_witness :
    runWorker () ([Option.some wTask1] ++ Option.some wTask0 :: [Option.some wTask1])
      = runWorker () [Option.some wTask1]
          ++ ⟨wTask0.slot, Except.error ⟨PyExcKind.other "ValueError", "boom"⟩⟩
            :: runWorker () [Option.some wTask1] ∧
    (⟨wTask0.slot, (Except.error ⟨PyExcKind.other "ValueError", "boom"⟩ : PyResult Nat)⟩ : SlotWrite Nat)
      ∈ runWorker () ([Option.some wTask1] ++ Option.some wTask0 :: [Option.some wTask1]) ∧
    (runWorker () ([Option.some wTask1] ++ Option.some wTask0 :: [Option.some wTask1])).length
      = [Option.some wTask1].length + 1 + [Option.some wTask1].length :=
  worker_survives_task_error () [Option.some wTask1] [Option.some wTask1]
    wTask0 ⟨PyExcKind.other "ValueError", "boom"⟩ (by simp) (by simp) rfl

/-- C5: a path that is not a regular file makes `new_project` (and
`new_module` through its joined entry file) return the FileNotFound error
without reaching `thread::spawn`; and a load whose `init()` fails leaves no
worker running — its whole trace is the failure signal followed by exit,
with no task ever consumed. -/
theorem failed_load_leaves_no_worker (M T : Type) (env : LoadEnv M)
    (f p g : String) (msgs : List (Msg T M)) (e : PyErr)
    (hf : env.isFile f = false)
    (hp : env.isFile (pathJoin p initFileName) = false)
    (hg : env.loadInit g = Except.error e) :
    new_project env f = Except.error (fileNotFoundErr f) ∧
    new_project_spawns env f = false ∧
    new_module env p = Except.error (fileNotFoundErr (pathJoin p initFileName)) ∧
    new_module_spawns env p = false ∧
    workerEvents (T := T) (env.loadInit g) msgs
      = [WEvent.initSent (Except.error e), WEvent.exited] := by
  refine ⟨?_, ?_, ?_, ?_, ?_⟩ <;>
    simp [new_project, new_module, new_project_spawns, new_module_spawns,
      hf, hp, hg, workerEvents]

/-- Witness for C5 at a concrete failing environment. -/
theorem failed_load_leaves_no_worker_witness :
    new_project wEnvBad "main.py" = Except.error (fileNotFoundErr "main.py") ∧
    new_project_spawns wEnvBad "main.py" = false ∧
    new_module wEnvBad "pkg"
      = Except.error (fileNotFoundErr (pathJoin "pkg" initFileName)) ∧
    new_module_spawns wEnvBad "pkg" = false ∧
    workerEvents (T := Nat) (wEnvBad.loadInit "g.py") []
      = [WEvent.initSent (Except.error (fileNotFoundErr "g.py")), WEvent.exited] :=
  failed_load_leaves_no_worker Unit Nat wEnvBad "main.py" "pkg" "g.py" []
    (fileNotFoundErr "g.py") rfl rfl rfl

/-- C9: `execute_code` runs the source against the newly created empty
namespace and hands the result to the extraction function, so it is a pure
function of its arguments: every element of a sequence of independent calls
equals the single-call result, and on the example of the spec every one of
`m` successive calls yields the text `10`. -/
theorem execute_code_stateless (T : Type)
    (interp : String → PyNs → PyResult PyNs) (s : String)
    (f : PyNs → PyResult T) (n m : Nat) (g : PyNs)
    (hn : hasNul s = false) (hg : interp s emptyNs = Except.ok g) :
    execute_code interp s f = ExecOutcome.ret (f g) ∧
    (∀ r ∈ execSeq interp s f n, r = ExecOutcome.ret (f g)) ∧
    execSeq assignInterp code10 extractX m
      = List.replicate m (ExecOutcome.ret (Except.ok "10")) := by
  have h1 : execute_code interp s f = ExecOutcome.ret (f g) := by
    simp [execute_code, hn, hg]
  refine ⟨h1, ?_, ?_⟩
  · induction n with
    | zero =>
      intro r hr
      simp [execSeq] at hr
    | succ k ih =>
      intro r hr
      rw [execSeq] at hr
      rcases List.mem_append.mp hr with h | h
      · exact ih r h
      · rw [List.mem_singleton] at h
        rw [h, h1]
  · induction m with
    | zero => rfl
    | succ k ih =>
      rw [execSeq, ih, List.replicate_succ']
      have h10 : execute_code assignInterp code10 extractX
          = ExecOutcome.ret (Except.ok "10") := by decide
      rw [h10]

/-- Witness for C9 at the concrete example of the spec. -/
theorem execute_code_stateless_witness :
    execute_code assignInterp code10 extractX
      = ExecOutcome.ret (extractX [("x", "10")]) ∧
    (∀ r ∈ execSeq assignInterp code10 extractX 2,
      r = ExecOutcome.ret (extractX [("x", "10")])) ∧
    execSeq assignInterp code10 extractX 2
      = List.replicate 2 (ExecOutcome.ret (Except.ok "10")) :=
  execute_code_stateless String assignInterp code10 extractX 2 2
    [("x", "10")] (by decide) (by decide)

/-- C10: `execute_code` returns an `Err` value only when the extraction
function fails (the namespace run must have succeeded); a source with an
interior NUL byte panics at `CString::new`, and a source that raises
panics at `py.run(..).unwrap()` — neither is returned as an `Err`. -/
theorem execute_code_err_only_from_extract (T : Type)
    (interp : String → PyNs → PyResult PyNs) (s : String)
    (f : PyNs → PyResult T) :
    (∀ e, execute_code interp s f = ExecOutcome.ret (Except.error e) →
      hasNul s = false ∧
        ∃ g, interp s emptyNs = Except.ok g ∧ f g = Except.error e) ∧
    (hasNul s = true →
      execute_code interp s f = ExecOutcome.panic "CString new failed") ∧
    (∀ e2, hasNul s = false → interp s emptyNs = Except.error e2 →
      execute_code interp s f = ExecOutcome.panic "run unwrap") := by
  refine ⟨?_, ?_, ?_⟩
  · intro e he
    cases hn : hasNul s with
    | true => simp [execute_code, hn] at he
    | false =>
      cases hi : interp s emptyNs with
      | error e2 => simp [execute_code, hn, hi] at he
      | ok g =>
        refine ⟨rfl, g, rfl, ?_⟩
        simp [execute_code, hn, hi] at he
        exact he
  · intro hn
    simp [execute_code, hn]
  · intro e2 hn hi
    simp [execute_code, hn, hi]

end PyRunner
